import Mathlib

/-!
Verification development for `uvtvirt.py` (uvt-virtualization).

The program is a sequence of external process invocations glued together by
minimal control flow.  We embed it shallowly:

* external effects (spawned commands, environment variables, filesystem
  queries, apt state, `lsb_release`, `dpkg`, `tempfile.mktemp`) are an oracle
  `World`;
* each Python function becomes a Lean function returning an `Eff` value that
  records the result (or an uncaught Python exception), the list of commands
  handed to `Popen` in order, the lines printed to stdout, and the log
  records emitted;
* `self` mutation is explicit state passing of the `UVTKVMTest` record.

Definitions follow the source (`src/uvtvirt.py`) line by line; the relevant
pieces of the Python standard library (`urllib.parse.urlparse`, `str.find`,
`str.strip`, slicing) are modelled as executable Lean functions.
-/

/-- A Python exception escaping a modelled function. -/
inductive PyError where
  | fileNotFound
  | keyError (key : String)
  | other (msg : String)
deriving DecidableEq, Repr

/-- Logging levels used by the program (`logging.debug` / `logging.error`). -/
inductive LogLevel where
  | debug
  | error
deriving DecidableEq, Repr

/-- One record emitted through the `logging` module. -/
structure LogEntry where
  level : LogLevel
  msg : String
deriving DecidableEq, Repr

/-- Result of running a modelled Python computation: a value, or an uncaught
exception propagating out of it. -/
inductive PyResult (α : Type) where
  | ok (a : α)
  | raised (e : PyError)
deriving DecidableEq, Repr

/-- Effect of a modelled Python computation: its result plus everything it
did to the outside world — the command strings handed to `Popen` in order,
the lines printed to stdout, and the log records emitted. -/
structure Eff (α : Type) where
  res : PyResult α
  cmds : List String
  printed : List String
  logs : List LogEntry
deriving DecidableEq, Repr

def Eff.pureE {α : Type} (a : α) : Eff α := ⟨PyResult.ok a, [], [], []⟩

def Eff.bind {α β : Type} (x : Eff α) (f : α → Eff β) : Eff β :=
  match x.res with
  | PyResult.raised e => ⟨PyResult.raised e, x.cmds, x.printed, x.logs⟩
  | PyResult.ok a =>
    let y := f a
    ⟨y.res, x.cmds ++ y.cmds, x.printed ++ y.printed, x.logs ++ y.logs⟩

instance : Monad Eff where
  pure := Eff.pureE
  bind := Eff.bind

theorem Eff.bind_eq {α β : Type} (x : Eff α) (f : α → Eff β) :
    x >>= f = Eff.bind x f := rfl

theorem Eff.pure_eq {α : Type} (a : α) :
    (pure a : Eff α) = ⟨PyResult.ok a, [], [], []⟩ := rfl

def logD (m : String) : Eff Unit := ⟨PyResult.ok (), [], [], [⟨LogLevel.debug, m⟩]⟩

def logE (m : String) : Eff Unit := ⟨PyResult.ok (), [], [], [⟨LogLevel.error, m⟩]⟩

def pyPrint (m : String) : Eff Unit := ⟨PyResult.ok (), [], [m], []⟩

def pyRaise {α : Type} (e : PyError) : Eff α := ⟨PyResult.raised e, [], [], []⟩

/-- What `Popen` + `communicate` do for one command string: either yield
stdout, stderr and an exit code, or raise (e.g. `FileNotFoundError` when the
executable is missing). -/
inductive RunOutcome where
  | ok (stdout stderr : String) (returncode : Int)
  | raises (e : PyError)
deriving DecidableEq, Repr

/-- Oracle for everything outside the program: behaviour of spawned
commands, `os.environ`, `os.path.exists`, the `lsb_release` codename, the
output of `dpkg --print-architecture`, the value of `tempfile.mktemp()`, the
apt cache (`none` means the package name is not in the cache, which raises
`KeyError`), whether `cache.commit()` succeeds, and the `repr` of
`sys.stderr` (printed by a formatting slip in `check_package`). -/
structure World where
  run : String → RunOutcome
  env : String → Option String
  pathExists : String → Bool
  codename : String
  archOut : String
  mktempOut : String
  aptPkg : String → Option Bool
  aptCommitOk : Bool
  stderrRepr : String

/-- `os.environ[k]`: raises `KeyError` when the variable is absent. -/
def envGet (w : World) (k : String) : Eff String :=
  match w.env k with
  | some v => Eff.pureE v
  | none => pyRaise (PyError.keyError k)

/- ### Modelled pieces of the Python standard library -/

/-- Python `s[n:]`. -/
def pyDrop (n : Nat) (s : String) : String := String.mk (s.data.drop n)

/-- Whitespace for Python `str.strip()`. -/
def pySpace (c : Char) : Bool :=
  c == ' ' || c == '\t' || c == '\n' || c == '\r' || c == '\x0b' || c == '\x0c'

/-- Python `str.strip()` with no argument. -/
def pyStrip (s : String) : String :=
  String.mk (((s.data.dropWhile pySpace).reverse.dropWhile pySpace).reverse)

/-- Index of the first occurrence of `sub` in the list, if any. -/
def firstOccur (sub : List Char) : List Char → Option Nat
  | [] => if sub.isEmpty then some 0 else none
  | c :: rest =>
    if List.isPrefixOf sub (c :: rest) then some 0
    else (firstOccur sub rest).map (· + 1)

/-- Python `s.find(sub)`: index of the first occurrence, `-1` if absent. -/
def pyFind (s sub : String) : Int :=
  match firstOccur sub.data s.data with
  | some n => (n : Int)
  | none => -1

/-- Whether `sub` occurs inside `s` (Python `sub in s`). -/
def hasSubstr (s sub : String) : Bool :=
  (firstOccur sub.data s.data).isSome

/-- Split at the first occurrence of a delimiter character. -/
def splitAtFirst (d : Char) : List Char → Option (List Char × List Char)
  | [] => none
  | c :: rest =>
    if c == d then some ([], rest)
    else
      match splitAtFirst d rest with
      | some (a, b) => some (c :: a, b)
      | none => none

/-- Split at the last occurrence of a delimiter character. -/
def splitAtLast (d : Char) : List Char → Option (List Char × List Char)
  | [] => none
  | c :: rest =>
    match splitAtLast d rest with
    | some (a, b) => some (c :: a, b)
    | none => if c == d then some ([], rest) else none

/-- Take characters until one of the stop characters is hit. -/
def takeUntilAny (stops : List Char) : List Char → List Char × List Char
  | [] => ([], [])
  | c :: rest =>
    if stops.contains c then ([], c :: rest)
    else
      let (a, b) := takeUntilAny stops rest
      (c :: a, b)

/-- Characters allowed after the first character of a URL scheme. -/
def schemeChar (c : Char) : Bool :=
  c.isAlphanum || c == '+' || c == '-' || c == '.'

/-- `urllib.parse` sanitisation: strip leading C0-control/space characters
and remove tab, carriage return and newline everywhere. -/
def sanitizeUrl (l : List Char) : List Char :=
  (l.dropWhile (fun c => c.toNat ≤ 32)).filter
    (fun c => !(c == '\t' || c == '\r' || c == '\n'))

/-- Scheme splitting of `urllib.parse.urlsplit`: the part before the first
colon is a scheme when it is nonempty, starts with an ASCII letter and
consists of scheme characters; it is lower-cased. -/
def splitSchemeL (l : List Char) : List Char × List Char :=
  match splitAtFirst ':' l with
  | none => ([], l)
  | some (before, after) =>
    match before with
    | [] => ([], l)
    | c :: cs =>
      if c.isAlpha && cs.all schemeChar then ((c :: cs).map Char.toLower, after)
      else ([], l)

/-- Netloc splitting of `urlsplit`: after `//`, up to the next `/`, `?` or
`#`. -/
def splitNetlocL (l : List Char) : List Char × List Char :=
  match l with
  | '/' :: '/' :: rest => takeUntilAny ['/', '?', '#'] rest
  | _ => ([], l)

/-- Params splitting of `urlparse` (`_splitparams`), applied when the path
contains `;`: split the last path segment at its first `;`. -/
def splitParamsL (l : List Char) : List Char × List Char :=
  if l.contains ';' then
    match splitAtLast '/' l with
    | some (pre, seg) =>
      match splitAtFirst ';' seg with
      | some (a, b) => (pre ++ '/' :: a, b)
      | none => (l, [])
    | none =>
      match splitAtFirst ';' l with
      | some (a, b) => (a, b)
      | none => (l, [])
  else (l, [])

/-- Result of `urllib.parse.urlparse`. -/
structure UrlParseResult where
  scheme : String
  netloc : String
  path : String
  params : String
  query : String
  fragment : String
deriving DecidableEq, Repr

/-- Model of `urllib.parse.urlparse`: sanitise; split the scheme; split the
netloc after `//`; split the fragment at the first `#`, then the query at
the first `?`; finally split params out of the path. -/
def urlparse (s : String) : UrlParseResult :=
  let l := sanitizeUrl s.data
  let (scheme, rest1) := splitSchemeL l
  let (netloc, rest2) := splitNetlocL rest1
  let (rest3, fragment) :=
    match splitAtFirst '#' rest2 with
    | some (a, b) => (a, b)
    | none => (rest2, [])
  let (path0, query) :=
    match splitAtFirst '?' rest3 with
    | some (a, b) => (a, b)
    | none => (rest3, [])
  let (path, params) := splitParamsL path0
  { scheme := String.mk scheme
    netloc := String.mk netloc
    path := String.mk path
    params := String.mk params
    query := String.mk query
    fragment := String.mk fragment }

/- ### The program itself (`src/uvtvirt.py`) -/

/-- The `RunCommand` class: holds stdout, stderr, return code and the
original command of one executed shell command. -/
structure RunCommand where
  cmd : String
  stdout : String
  stderr : String
  returncode : Int
deriving DecidableEq, Repr

/-- `RunCommand.__init__` / `RunCommand.run`: `Popen(shlex.split(cmd), ...)`
followed by `communicate()`.  There is no `try` around the spawn, so a spawn
failure raises out of the constructor; a nonzero exit code is recorded, not
raised.  The attempted command is recorded in the trace either way. -/
def RunCommand.init (w : World) (cmd : String) : Eff RunCommand :=
  match w.run cmd with
  | RunOutcome.raises e => ⟨PyResult.raised e, [cmd], [], []⟩
  | RunOutcome.ok out err rc => ⟨PyResult.ok ⟨cmd, out, err, rc⟩, [cmd], [], []⟩

/-- Test state held by `UVTKVMTest`: the image value, the OS release
codename, the machine architecture and the generated VM name. -/
structure UVTKVMTest where
  image : String
  release : String
  arch : String
  name : String
deriving DecidableEq, Repr

/-- `UVTKVMTest.__init__`: stores the image, queries
`lsb_release.get_distro_information()["CODENAME"]`, runs
`dpkg --print-architecture` and strips its output, and derives the VM name
from `tempfile.mktemp()[5:]`. -/
def UVTKVMTest.init (w : World) (image : String) : UVTKVMTest :=
  { image := image
    release := w.codename
    arch := pyStrip w.archOut
    name := pyDrop 5 w.mktempOut }

/-- `UVTKVMTest.run_command`: run the command; on nonzero exit log the
command, stdout and stderr at error level and return `False`; on exit code
zero log at debug level and return `True`. -/
def UVTKVMTest.run_command (w : World) (t : UVTKVMTest) (cmd : String) : Eff Bool := do
  let task ← RunCommand.init w cmd
  if task.returncode ≠ 0 then do
    logE ("Command " ++ task.cmd ++ " returnd a code of " ++ toString task.returncode)
    logE (" STDOUT: " ++ task.stdout)
    logE (" STDERR: " ++ task.stderr)
    pure false
  else do
    logD ("Command " ++ task.cmd ++ ":")
    if task.stdout ≠ "" then logD (" STDOUT: " ++ task.stdout)
    else if task.stderr ≠ "" then logD (" STDERR: " ++ task.stderr)
    else logD (" Command returned no output")
    pure true

/-- `UVTKVMTest.check_package`: look the package up in the apt cache
(raising `KeyError` when absent), print when already installed, otherwise
mark for install; `cache.commit()` failures are caught and printed (the
source formats `sys.stderr` into that message). -/
def UVTKVMTest.check_package (w : World) (pkg_name : String) : Eff Unit := do
  match w.aptPkg pkg_name with
  | none => pyRaise (PyError.keyError pkg_name)
  | some inst => do
    if inst then pyPrint (pkg_name ++ " already installed") else pure ()
    if w.aptCommitOk then pure ()
    else pyPrint ("Install of " ++ w.stderrRepr ++ " failed")

/-- `UVTKVMTest.get_image_or_source`: parse the image value as a URL; for
scheme `file` keep the path component as the image; otherwise run the
simplestreams sync, adding `--source` for scheme `http`. -/
def UVTKVMTest.get_image_or_source (w : World) (t : UVTKVMTest) :
    Eff (Bool × UVTKVMTest) := do
  let url := urlparse t.image
  if url.scheme = "file" then do
    logD ("Cloud image exists locally at " ++ url.path)
    pure (true, { t with image := url.path })
  else do
    let cmd := "uvt-simplestreams-libvirt sync release=" ++ t.release ++
      " arch=" ++ t.arch
    let cmd ←
      if url.scheme = "http" then do
        logD "Using --source option for uvt-simpletreams"
        pure (cmd ++ " --source " ++ t.image ++ " ")
      else pure cmd
    logD "uvt-simplestreams-libvirt sync"
    let ok ← t.run_command w cmd
    if ok then pure (true, t) else pure (false, t)

/-- The `uvt-kvm create` command built in `UVTKVMTest.start`: the release
and VM name, plus `--backing-image-file` when `self.image.find(".img") > 0`. -/
def UVTKVMTest.create_cmd (t : UVTKVMTest) : String :=
  let cmd := "uvt-kvm create release=" ++ t.release ++ " " ++ t.name
  if pyFind t.image ".img" > 0 then cmd ++ " --backing-image-file " ++ t.image ++ " "
  else cmd

/-- `UVTKVMTest.start`: generate an ssh key when missing (the `mkdir`
result is ignored), then create the VM, wait for it, list VMs, and verify
reachability over ssh twice; the first failing step makes `start` return
`False` immediately. -/
def UVTKVMTest.start (w : World) (t : UVTKVMTest) : Eff (Bool × UVTKVMTest) := do
  let home_dir ← envGet w "HOME"
  let ssh_key_file := home_dir ++ "/.ssh/id_rsa"
  let kg ←
    if w.pathExists ssh_key_file = false then do
      let _ ← t.run_command w ("mkdir -p " ++ home_dir ++ "/.ssh")
      t.run_command w ("ssh-keygen -f " ++ ssh_key_file ++ " -t rsa -N ''")
    else pure true
  if kg = false then pure (false, t)
  else do
    logD "Creating VM"
    let c ← t.run_command w t.create_cmd
    if c = false then pure (false, t)
    else do
      logD "Wait for VM to complete creation"
      let wt ← t.run_command w ("uvt-kvm wait " ++ t.name)
      if wt = false then pure (false, t)
      else do
        logD "List newly created vm"
        let ls ← t.run_command w "uvt-kvm list"
        if ls = false then pure (false, t)
        else do
          logD "Verify VM was created with ssh"
          let s1 ← t.run_command w ("uvt-kvm ssh " ++ t.name)
          if s1 = false then pure (false, t)
          else do
            logD "Verify VM was created with ssh and run a command"
            let s2 ← t.run_command w
              ("uvt-kvm ssh " ++ t.name ++ " \"lsb_release -a \"")
            if s2 = false then pure (false, t) else pure (true, t)

/-- `UVTKVMTest.cleanup`: `virsh destroy`, `virsh undefine`, then purge the
simplestreams images; the first failing step returns `False`. -/
def UVTKVMTest.cleanup (w : World) (t : UVTKVMTest) : Eff (Bool × UVTKVMTest) := do
  logD "Destroy VM"
  let d ← t.run_command w ("virsh destroy " ++ t.name)
  if d = false then pure (false, t)
  else do
    logD "Undefine VM"
    let u ← t.run_command w ("virsh undefine " ++ t.name)
    if u = false then pure (false, t)
    else do
      let p ← t.run_command w "uvt-simplestreams-libvirt purge"
      if p = false then pure (false, t) else pure (true, t)

/-- Image selection in `test_uvtkvm`: start from `""`, take the
`UVT_IMAGE_OR_SOURCE` environment value when the variable is present, then
`if args.image:` — the flag overrides only when it is a nonempty string. -/
def select_image (envVal : Option String) (argsImage : Option String) : String :=
  let image := ""
  let image :=
    match envVal with
    | some v => v
    | none => image
  match argsImage with
  | some v => if v ≠ "" then v else image
  | none => image

/-- Data of one complete `test_uvtkvm` run: the context as constructed and
as left after cleanup, the booleans returned by the three stage calls (the
image-resolution and cleanup booleans are discarded by the source), and the
`sys.exit` code. -/
structure RunResult where
  t0 : UVTKVMTest
  final : UVTKVMTest
  gisResult : Bool
  startResult : Bool
  cleanupResult : Bool
  exitCode : Nat
deriving DecidableEq, Repr

/-- `test_uvtkvm`: select the image, build the test context, check the two
packages, resolve the image (result discarded), start (result kept), clean
up (result discarded), then print PASS/FAIL and `sys.exit(0)`/`sys.exit(1)`
according to the `start` result alone. -/
def test_uvtkvm (w : World) (argsImage : Option String) : Eff RunResult := do
  logD "Executing UVT KVM Test"
  let image := select_image (w.env "UVT_IMAGE_OR_SOURCE") argsImage
  let uvt_test := UVTKVMTest.init w image
  UVTKVMTest.check_package w "uvtool"
  UVTKVMTest.check_package w "uvtool-libvirt"
  let (g, t1) ← uvt_test.get_image_or_source w
  let (result, t2) ← t1.start w
  let (c, t3) ← t2.cleanup w
  if result then do
    pyPrint "PASS: VM was succssfully started and checked"
    pure ⟨uvt_test, t3, g, result, c, 0⟩
  else do
    pyPrint "FAIL: VM was not started and/or checked"
    pure ⟨uvt_test, t3, g, result, c, 1⟩

/- ### General lemmas about the embedding -/

/-- A nonempty list is a Boolean prefix of itself followed by anything. -/
theorem firstOccur_self_append (s b : List Char) :
    (firstOccur s (s ++ b)).isSome = true := by
  cases s with
  | nil =>
    cases b <;> simp [firstOccur, List.isPrefixOf]
  | cons c cs =>
    have hp : List.isPrefixOf (c :: cs) (c :: cs ++ b) = true :=
      List.isPrefixOf_iff_prefix.mpr ⟨b, by simp⟩
    simp [firstOccur, hp]

/-- `firstOccur` finds an occurrence that is explicitly present. -/
theorem firstOccur_append_isSome (a s b : List Char) :
    (firstOccur s (a ++ (s ++ b))).isSome = true := by
  induction a with
  | nil => simpa using firstOccur_self_append s b
  | cons c a ih =>
    by_cases hp : s <+: c :: (a ++ (s ++ b))
    · have hp2 : List.isPrefixOf s (c :: (a ++ (s ++ b))) = true :=
        List.isPrefixOf_iff_prefix.mpr hp
      simp [firstOccur, hp2]
    · have hp2 : List.isPrefixOf s (c :: (a ++ (s ++ b))) = false := by
        cases hb : List.isPrefixOf s (c :: (a ++ (s ++ b)))
        · rfl
        · exact absurd (List.isPrefixOf_iff_prefix.mp hb) hp
      simp [firstOccur, hp2, ih]

/-- A string of the shape `a ++ s ++ b` contains `s` as a substring. -/
theorem hasSubstr_append (a s b : String) : hasSubstr (a ++ s ++ b) s = true := by
  have hd : (a ++ s ++ b).data = a.data ++ (s.data ++ b.data) := by
    simp [String.data_append]
  simp only [hasSubstr, hd]
  exact firstOccur_append_isSome a.data s.data b.data

theorem start_frame (w : World) (t : UVTKVMTest) (b : Bool) (t' : UVTKVMTest)
    (h : (UVTKVMTest.start w t).res = PyResult.ok (b, t')) : t' = t := by
  unfold UVTKVMTest.start at h
  simp only [Eff.bind_eq, Eff.bind, Eff.pure_eq, envGet, logD, pyRaise, Eff.pureE] at h
  repeat' split at h
  all_goals simp_all

theorem cleanup_frame (w : World) (t : UVTKVMTest) (b : Bool) (t' : UVTKVMTest)
    (h : (UVTKVMTest.cleanup w t).res = PyResult.ok (b, t')) : t' = t := by
  unfold UVTKVMTest.cleanup at h
  simp only [Eff.bind_eq, Eff.bind, Eff.pure_eq, envGet, logD, pyRaise, Eff.pureE] at h
  repeat' split at h
  all_goals simp_all

theorem gis_frame (w : World) (t : UVTKVMTest) (b : Bool) (t' : UVTKVMTest)
    (h : (UVTKVMTest.get_image_or_source w t).res = PyResult.ok (b, t')) :
    t'.release = t.release ∧ t'.arch = t.arch ∧ t'.name = t.name ∧
      (((urlparse t.image).scheme = "file" ∧ t'.image = (urlparse t.image).path) ∨
        ((urlparse t.image).scheme ≠ "file" ∧ t' = t)) := by
  unfold UVTKVMTest.get_image_or_source at h
  simp only [Eff.bind_eq, Eff.bind, Eff.pure_eq, envGet, logD, pyRaise, Eff.pureE] at h
  repeat' split at h
  all_goals simp_all
  all_goals (obtain ⟨-, ht⟩ := h; subst ht; simp)

theorem run_command_of_ok_ne (w : World) (t : UVTKVMTest) (cmd out err : String)
    (rc : Int) (h : w.run cmd = RunOutcome.ok out err rc) (hrc : rc ≠ 0) :
    UVTKVMTest.run_command w t cmd =
      ⟨PyResult.ok false, [cmd], [],
       [⟨LogLevel.error, "Command " ++ cmd ++ " returnd a code of " ++ toString rc⟩,
        ⟨LogLevel.error, " STDOUT: " ++ out⟩,
        ⟨LogLevel.error, " STDERR: " ++ err⟩]⟩ := by
  unfold UVTKVMTest.run_command RunCommand.init
  rw [h]
  simp [Eff.bind_eq, Eff.bind, Eff.pure_eq, logE, logD, hrc]

theorem run_command_of_ok_zero (w : World) (t : UVTKVMTest) (cmd out err : String)
    (rc : Int) (h : w.run cmd = RunOutcome.ok out err rc) (hrc : rc = 0) :
    UVTKVMTest.run_command w t cmd =
      ⟨PyResult.ok true, [cmd], [],
       ⟨LogLevel.debug, "Command " ++ cmd ++ ":"⟩ ::
        (if out ≠ "" then [⟨LogLevel.debug, " STDOUT: " ++ out⟩]
         else if err ≠ "" then [⟨LogLevel.debug, " STDERR: " ++ err⟩]
         else [⟨LogLevel.debug, " Command returned no output"⟩])⟩ := by
  subst hrc
  unfold UVTKVMTest.run_command RunCommand.init
  rw [h]
  by_cases ho : out = "" <;> by_cases he : err = "" <;>
    simp [Eff.bind_eq, Eff.bind, Eff.pure_eq, logE, logD, ho, he]

theorem run_command_of_raises (w : World) (t : UVTKVMTest) (cmd : String)
    (e : PyError) (h : w.run cmd = RunOutcome.raises e) :
    UVTKVMTest.run_command w t cmd = ⟨PyResult.raised e, [cmd], [], []⟩ := by
  unfold UVTKVMTest.run_command RunCommand.init
  rw [h]
  simp [Eff.bind_eq, Eff.bind]

theorem run_command_cmds (w : World) (t : UVTKVMTest) (cmd : String) :
    (UVTKVMTest.run_command w t cmd).cmds = [cmd] := by
  rcases h : w.run cmd with ⟨out, err, rc⟩ | e
  · by_cases hrc : rc = 0
    · rw [run_command_of_ok_zero w t cmd out err rc h hrc]
    · rw [run_command_of_ok_ne w t cmd out err rc h hrc]
  · rw [run_command_of_raises w t cmd e h]

theorem cleanup_destroy_mem (w : World) (t : UVTKVMTest) :
    ("virsh destroy " ++ t.name) ∈ (UVTKVMTest.cleanup w t).cmds := by
  rcases hd : UVTKVMTest.run_command w t ("virsh destroy " ++ t.name)
    with ⟨rd, cd, pd, ld⟩
  have hcd : cd = ["virsh destroy " ++ t.name] := by
    have := run_command_cmds w t ("virsh destroy " ++ t.name)
    rw [hd] at this
    exact this
  unfold UVTKVMTest.cleanup
  simp only [Eff.bind_eq, Eff.bind, Eff.pure_eq, logD, hd]
  rcases rd with b | e <;> simp [hcd]

theorem test_uvtkvm_run (w : World) (argsImage : Option String) (r : RunResult)
    (h : (test_uvtkvm w argsImage).res = PyResult.ok r) :
    r.t0 = UVTKVMTest.init w (select_image (w.env "UVT_IMAGE_OR_SOURCE") argsImage) ∧
    r.exitCode = (if r.startResult then 0 else 1) ∧
    (test_uvtkvm w argsImage).printed.getLast? =
      some (if r.startResult then "PASS: VM was succssfully started and checked"
            else "FAIL: VM was not started and/or checked") ∧
    ("virsh destroy " ++ r.final.name) ∈ (test_uvtkvm w argsImage).cmds ∧
    r.final.release = r.t0.release ∧ r.final.arch = r.t0.arch ∧
    r.final.name = r.t0.name ∧
    (r.final.image = r.t0.image ∨
      ((urlparse r.t0.image).scheme = "file" ∧
        r.final.image = (urlparse r.t0.image).path)) := by
  rcases h1 : UVTKVMTest.check_package w "uvtool" with ⟨r1, c1, p1, l1⟩
  rcases h2 : UVTKVMTest.check_package w "uvtool-libvirt" with ⟨r2, c2, p2, l2⟩
  rcases h3 : UVTKVMTest.get_image_or_source w
      (UVTKVMTest.init w (select_image (w.env "UVT_IMAGE_OR_SOURCE") argsImage))
    with ⟨r3, c3, p3, l3⟩
  unfold test_uvtkvm at h ⊢
  simp only [Eff.bind_eq, Eff.bind, Eff.pure_eq, logD, pyPrint, h1, h2, h3] at h ⊢
  rcases r1 with a1 | e1
  swap
  · simp at h
  rcases r2 with a2 | e2
  swap
  · simp at h
  rcases r3 with ⟨g, t1⟩ | e3
  swap
  · simp at h
  simp only at h ⊢
  rcases h4 : UVTKVMTest.start w t1 with ⟨r4, c4, p4, l4⟩
  simp only [h4] at h ⊢
  rcases r4 with ⟨res, t2⟩ | e4
  swap
  · simp at h
  simp only at h ⊢
  rcases h5 : UVTKVMTest.cleanup w t2 with ⟨r5, c5, p5, l5⟩
  simp only [h5] at h ⊢
  rcases r5 with ⟨c, t3⟩ | e5
  swap
  · simp at h
  simp only at h ⊢
  have hgis : (UVTKVMTest.get_image_or_source w
      (UVTKVMTest.init w (select_image (w.env "UVT_IMAGE_OR_SOURCE") argsImage))).res =
      PyResult.ok (g, t1) := by rw [h3]
  obtain ⟨hr, ha, hn, him⟩ := gis_frame _ _ _ _ hgis
  have hstart : (UVTKVMTest.start w t1).res = PyResult.ok (res, t2) := by rw [h4]
  have ht2 := start_frame _ _ _ _ hstart
  have hclean : (UVTKVMTest.cleanup w t2).res = PyResult.ok (c, t3) := by rw [h5]
  have ht3 := cleanup_frame _ _ _ _ hclean
  have hdestroy : ("virsh destroy " ++ t2.name) ∈ c5 := by
    have hd := cleanup_destroy_mem w t2
    rw [h5] at hd
    simpa using hd
  subst ht2
  subst ht3
  cases res
  · simp at h ⊢
    subst h
    refine ⟨rfl, by simp, ?_, ?_, hr, ha, hn, ?_⟩
    · simp
    · simp [hdestroy]
    · rcases him with ⟨hs, hi⟩ | ⟨hs, hi⟩
      · exact Or.inr ⟨hs, hi⟩
      · exact Or.inl (by rw [hi])
  · simp at h ⊢
    subst h
    refine ⟨rfl, by simp, ?_, ?_, hr, ha, hn, ?_⟩
    · simp
    · simp [hdestroy]
    · rcases him with ⟨hs, hi⟩ | ⟨hs, hi⟩
      · exact Or.inr ⟨hs, hi⟩
      · exact Or.inl (by rw [hi])

/- ### Concrete environments used as test inputs -/

/-- A benign environment: every command exits 0 with no output, `HOME` is
set, the ssh key already exists, both packages are installed, the release
is focal on amd64, and `mktemp` produced `/tmp/tmpabc` (VM name `tmpabc`). -/
def baseWorld : World where
  run := fun _ => RunOutcome.ok "" "" 0
  env := fun k => if k = "HOME" then some "/root" else none
  pathExists := fun _ => true
  codename := "focal"
  archOut := "amd64"
  mktempOut := "/tmp/tmpabc"
  aptPkg := fun _ => some true
  aptCommitOk := true
  stderrRepr := "<stderr>"

/-- Environment in which only the VM-creation command fails (exit code 1). -/
def createFailWorld : World :=
  { baseWorld with
    run := fun c =>
      if c = "uvt-kvm create release=focal tmpabc" then RunOutcome.ok "" "err" 1
      else RunOutcome.ok "" "" 0 }

/-- Environment in which every command exits 3 with some output. -/
def rcThreeWorld : World :=
  { baseWorld with run := fun _ => RunOutcome.ok "out" "boom" 3 }

/-- Environment in which spawning the simplestreams sync command raises
(`FileNotFoundError`: the executable is missing). -/
def spawnFailWorld : World :=
  { baseWorld with
    run := fun c =>
      if c = "uvt-simplestreams-libvirt sync release=focal arch=amd64" then
        RunOutcome.raises PyError.fileNotFound
      else RunOutcome.ok "" "" 0 }

/-- Environment in which image resolution fails (sync exits 1) and cleanup
fails (`virsh destroy` exits 1) while every `start` stage succeeds. -/
def gisCleanupFailWorld : World :=
  { baseWorld with
    run := fun c =>
      if c = "uvt-simplestreams-libvirt sync release=focal arch=amd64" then
        RunOutcome.ok "" "" 1
      else if c = "virsh destroy tmpabc" then RunOutcome.ok "" "" 1
      else RunOutcome.ok "" "" 0 }

/- ### Claims -/

/-- C2: for every command executed through `run_command` whose child process
ran to completion, the boolean reported is `true` iff the exit code is 0;
whenever the exit code is nonzero, an error-level log entry containing the
command text is emitted (it is the first log record) and `run_command`
returns `false`. -/
theorem c2_run_command_exit_code (w : World) (t : UVTKVMTest)
    (cmd out err : String) (rc : Int)
    (h : w.run cmd = RunOutcome.ok out err rc) :
    ((UVTKVMTest.run_command w t cmd).res = PyResult.ok true ↔ rc = 0) ∧
    (rc ≠ 0 →
      (UVTKVMTest.run_command w t cmd).res = PyResult.ok false ∧
      (UVTKVMTest.run_command w t cmd).logs.head? =
        some ⟨LogLevel.error,
          "Command " ++ cmd ++ " returnd a code of " ++ toString rc⟩ ∧
      hasSubstr ("Command " ++ cmd ++ " returnd a code of " ++ toString rc)
        cmd = true) := by
  constructor
  · constructor
    · intro hres
      by_contra hrc
      rw [run_command_of_ok_ne w t cmd out err rc h hrc] at hres
      simp at hres
    · intro hrc
      rw [run_command_of_ok_zero w t cmd out err rc h hrc]
  · intro hrc
    rw [run_command_of_ok_ne w t cmd out err rc h hrc]
    refine ⟨rfl, rfl, ?_⟩
    rw [String.append_assoc ("Command " ++ cmd)]
    exact hasSubstr_append "Command " cmd (" returnd a code of " ++ toString rc)

/-- Witness for C2 at a concrete environment where the command exits 3. -/
theorem c2_run_command_exit_code_witness :
    (UVTKVMTest.run_command rcThreeWorld (UVTKVMTest.init rcThreeWorld "")
        "false cmd").res = PyResult.ok false ∧
    (UVTKVMTest.run_command rcThreeWorld (UVTKVMTest.init rcThreeWorld "")
        "false cmd").logs.head? =
      some ⟨LogLevel.error,
        "Command " ++ "false cmd" ++ " returnd a code of " ++ toString (3 : Int)⟩ ∧
    hasSubstr ("Command " ++ "false cmd" ++ " returnd a code of " ++
      toString (3 : Int)) "false cmd" = true :=
  (c2_run_command_exit_code rcThreeWorld (UVTKVMTest.init rcThreeWorld "")
    "false cmd" "out" "boom" 3 (by decide)).2 (by decide)

/-- C3 counterexample: a process-launch failure is not caught.  In
`spawnFailWorld` spawning the sync command raises `FileNotFoundError`;
`run_command` propagates the exception instead of returning `false`, and it
escapes the orchestrator (`test_uvtkvm` ends in a raised exception, so no
PASS/FAIL exit is ever reached). -/
theorem c3_spawn_failure_counterexample :
    (UVTKVMTest.run_command spawnFailWorld (UVTKVMTest.init spawnFailWorld "")
        "uvt-simplestreams-libvirt sync release=focal arch=amd64").res =
      PyResult.raised PyError.fileNotFound ∧
    (test_uvtkvm spawnFailWorld none).res =
      PyResult.raised PyError.fileNotFound := by decide

/-- C3 amended: only nonzero exits of a spawned process are caught locally
and converted to the boolean `false` (never an exception); a spawn failure,
by contrast, raises and propagates out of `run_command` uncaught. -/
theorem c3_error_conversion (w : World) (t : UVTKVMTest) (cmd : String) :
    (∀ out err rc, w.run cmd = RunOutcome.ok out err rc →
      (UVTKVMTest.run_command w t cmd).res = PyResult.ok (decide (rc = 0))) ∧
    (∀ e, w.run cmd = RunOutcome.raises e →
      (UVTKVMTest.run_command w t cmd).res = PyResult.raised e) := by
  constructor
  · intro out err rc h
    by_cases hrc : rc = 0
    · rw [run_command_of_ok_zero w t cmd out err rc h hrc]
      simp [hrc]
    · rw [run_command_of_ok_ne w t cmd out err rc h hrc]
      simp [hrc]
  · intro e h
    rw [run_command_of_raises w t cmd e h]

/-- Witness for C3 (amended) at concrete environments: a nonzero exit
becomes `ok false`, a spawn failure becomes a raised exception. -/
theorem c3_error_conversion_witness :
    (UVTKVMTest.run_command rcThreeWorld (UVTKVMTest.init rcThreeWorld "")
        "anytool run").res = PyResult.ok false ∧
    (UVTKVMTest.run_command spawnFailWorld (UVTKVMTest.init spawnFailWorld "")
        "uvt-simplestreams-libvirt sync release=focal arch=amd64").res =
      PyResult.raised PyError.fileNotFound := by
  constructor
  · have h := (c3_error_conversion rcThreeWorld (UVTKVMTest.init rcThreeWorld "")
      "anytool run").1 "out" "boom" 3 (by decide)
    simpa using h
  · exact (c3_error_conversion spawnFailWorld (UVTKVMTest.init spawnFailWorld "")
      "uvt-simplestreams-libvirt sync release=focal arch=amd64").2
      PyError.fileNotFound (by decide)

/-- C1 counterexample: in `createFailWorld` the creation command exits 1;
the run completes with result `false` and exit code 1, and cleanup is
attempted, but the wait, list and ssh-verification stages are NOT attempted
— `start` returns at the first failed stage, contradicting the claim that
every later stage is still attempted and that no stage failure
short-circuits the stages scripted after it. -/
theorem c1_no_short_circuit_counterexample :
    createFailWorld.run "uvt-kvm create release=focal tmpabc" =
      RunOutcome.ok "" "err" 1 ∧
    (test_uvtkvm createFailWorld none).res =
      PyResult.ok ⟨⟨"", "focal", "amd64", "tmpabc"⟩,
        ⟨"", "focal", "amd64", "tmpabc"⟩, true, false, true, 1⟩ ∧
    "uvt-kvm wait tmpabc" ∉ (test_uvtkvm createFailWorld none).cmds ∧
    "uvt-kvm list" ∉ (test_uvtkvm createFailWorld none).cmds ∧
    "uvt-kvm ssh tmpabc" ∉ (test_uvtkvm createFailWorld none).cmds ∧
    "virsh destroy tmpabc" ∈ (test_uvtkvm createFailWorld none).cmds := by decide

/-- C1 amended: when the VM-creation command fails (nonzero exit), the
orchestrator logs the failure and `start` returns `false` at once — the
creation command is the only command `start` runs, so wait, list and the
ssh verifications are skipped; at the top level no stage failure
short-circuits the later scripted calls, so cleanup (`virsh destroy`) is
still attempted, and a completed run with a failed `start` exits with
code 1. -/
theorem c1_create_failure_behavior :
    (∀ w t out err rc home,
      w.env "HOME" = some home →
      w.pathExists (home ++ "/.ssh/id_rsa") = true →
      w.run (UVTKVMTest.create_cmd t) = RunOutcome.ok out err rc →
      rc ≠ 0 →
      (UVTKVMTest.start w t).res = PyResult.ok (false, t) ∧
      (UVTKVMTest.start w t).cmds = [UVTKVMTest.create_cmd t] ∧
      (⟨LogLevel.error, "Command " ++ UVTKVMTest.create_cmd t ++
          " returnd a code of " ++ toString rc⟩ : LogEntry) ∈
        (UVTKVMTest.start w t).logs) ∧
    (∀ w args r, (test_uvtkvm w args).res = PyResult.ok r →
      ("virsh destroy " ++ r.final.name) ∈ (test_uvtkvm w args).cmds ∧
      (r.startResult = false → r.exitCode = 1)) := by
  constructor
  · intro w t out err rc home henv hpath hrun hrc
    have hcreate := run_command_of_ok_ne w t (UVTKVMTest.create_cmd t) out err rc hrun hrc
    unfold UVTKVMTest.start
    simp only [Eff.bind_eq, Eff.bind, Eff.pure_eq, envGet, henv, Eff.pureE,
      hpath, logD, hcreate]
    simp
  · intro w args r h
    obtain ⟨-, hexit, -, hmem, -⟩ := test_uvtkvm_run w args r h
    refine ⟨hmem, fun hs => ?_⟩
    rw [hs] at hexit
    simpa using hexit

/-- Witness for C1 (amended) at `createFailWorld`. -/
theorem c1_create_failure_behavior_witness :
    (UVTKVMTest.start createFailWorld ⟨"", "focal", "amd64", "tmpabc"⟩).res =
      PyResult.ok (false, ⟨"", "focal", "amd64", "tmpabc"⟩) ∧
    ("virsh destroy " ++
        (⟨⟨"", "focal", "amd64", "tmpabc"⟩, ⟨"", "focal", "amd64", "tmpabc"⟩,
          true, false, true, 1⟩ : RunResult).final.name) ∈
      (test_uvtkvm createFailWorld none).cmds ∧
    (⟨⟨"", "focal", "amd64", "tmpabc"⟩, ⟨"", "focal", "amd64", "tmpabc"⟩,
        true, false, true, 1⟩ : RunResult).exitCode = 1 := by
  refine ⟨?_, ?_, ?_⟩
  · exact (c1_create_failure_behavior.1 createFailWorld
      ⟨"", "focal", "amd64", "tmpabc"⟩ "" "err" 1 "/root"
      (by decide) (by decide) (by decide) (by decide)).1
  · exact (c1_create_failure_behavior.2 createFailWorld none
      ⟨⟨"", "focal", "amd64", "tmpabc"⟩, ⟨"", "focal", "amd64", "tmpabc"⟩,
        true, false, true, 1⟩ (by decide)).1
  · exact (c1_create_failure_behavior.2 createFailWorld none
      ⟨⟨"", "focal", "amd64", "tmpabc"⟩, ⟨"", "focal", "amd64", "tmpabc"⟩,
        true, false, true, 1⟩ (by decide)).2 (by decide)

/-- C4 counterexample: the image value `".img"` ends in `".img"`, contains
the substring `".img"`, and does not parse as a `file`-scheme URL, yet the
creation command carries no backing-image argument: the source tests
`self.image.find(".img") > 0`, and the first occurrence is at index 0. -/
theorem c4_backing_image_counterexample :
    (urlparse ".img").scheme = "" ∧
    hasSubstr ".img" ".img" = true ∧
    pyFind ".img" ".img" = 0 ∧
    UVTKVMTest.create_cmd ⟨".img", "focal", "amd64", "vm1"⟩ =
      "uvt-kvm create release=focal vm1" ∧
    hasSubstr (UVTKVMTest.create_cmd ⟨".img", "focal", "amd64", "vm1"⟩)
      "--backing-image-file" = false := by decide

/-- C4 amended: the backing-image argument is passed exactly when the first
occurrence of `".img"` in the image value is at a strictly positive index
(so for any ordinary path `p.img` with nonempty `p` not itself starting
with `".img"`, but not for an image whose first `".img"` is at index 0);
when passed, the creation command is the base command followed by
`--backing-image-file` and the image path, and `start` hands exactly this
command to the runner as its first command. -/
theorem c4_backing_image (w : World) (t : UVTKVMTest) (home : String)
    (henv : w.env "HOME" = some home)
    (hpath : w.pathExists (home ++ "/.ssh/id_rsa") = true) :
    (UVTKVMTest.start w t).cmds.head? = some (UVTKVMTest.create_cmd t) ∧
    (pyFind t.image ".img" > 0 →
      UVTKVMTest.create_cmd t =
        "uvt-kvm create release=" ++ t.release ++ " " ++ t.name ++
          " --backing-image-file " ++ t.image ++ " " ∧
      hasSubstr (UVTKVMTest.create_cmd t)
        ("--backing-image-file " ++ t.image) = true) ∧
    (¬ pyFind t.image ".img" > 0 →
      UVTKVMTest.create_cmd t =
        "uvt-kvm create release=" ++ t.release ++ " " ++ t.name) := by
  refine ⟨?_, ?_, ?_⟩
  · rcases hc : UVTKVMTest.run_command w t (UVTKVMTest.create_cmd t)
      with ⟨rc2, cc, pc, lc⟩
    have hcc : cc = [UVTKVMTest.create_cmd t] := by
      have h0 := run_command_cmds w t (UVTKVMTest.create_cmd t)
      rw [hc] at h0
      exact h0
    unfold UVTKVMTest.start
    simp only [Eff.bind_eq, Eff.bind, Eff.pure_eq, envGet, henv, Eff.pureE,
      hpath, logD, hc]
    subst hcc
    rcases rc2 with b | e
    · cases b <;> simp
    · simp
  · intro hf
    have heq : UVTKVMTest.create_cmd t =
        "uvt-kvm create release=" ++ t.release ++ " " ++ t.name ++
          " --backing-image-file " ++ t.image ++ " " := by
      unfold UVTKVMTest.create_cmd
      rw [if_pos hf]
    refine ⟨heq, ?_⟩
    rw [heq]
    have h1 : " --backing-image-file " = " " ++ "--backing-image-file " := by decide
    rw [h1, ← String.append_assoc ("uvt-kvm create release=" ++ t.release ++ " " ++ t.name)
          " " "--backing-image-file ",
        String.append_assoc ("uvt-kvm create release=" ++ t.release ++ " " ++ t.name ++ " ")
          "--backing-image-file " t.image]
    exact hasSubstr_append _ _ _
  · intro hf
    unfold UVTKVMTest.create_cmd
    rw [if_neg hf]

/-- Witness for C4 (amended) at a bare local path ending in `.img`. -/
theorem c4_backing_image_witness :
    (UVTKVMTest.start baseWorld ⟨"/tmp/x.img", "focal", "amd64", "vm1"⟩).cmds.head? =
      some (UVTKVMTest.create_cmd ⟨"/tmp/x.img", "focal", "amd64", "vm1"⟩) ∧
    UVTKVMTest.create_cmd ⟨"/tmp/x.img", "focal", "amd64", "vm1"⟩ =
      "uvt-kvm create release=" ++ "focal" ++ " " ++ "vm1" ++
        " --backing-image-file " ++ "/tmp/x.img" ++ " " ∧
    hasSubstr (UVTKVMTest.create_cmd ⟨"/tmp/x.img", "focal", "amd64", "vm1"⟩)
      ("--backing-image-file " ++ "/tmp/x.img") = true := by
  have h := c4_backing_image baseWorld ⟨"/tmp/x.img", "focal", "amd64", "vm1"⟩
    "/root" (by decide) (by decide)
  exact ⟨h.1, (h.2.1 (by decide)).1, (h.2.1 (by decide)).2⟩

/-- C5: for every image value parsing as a URL with scheme `file`, image
resolution sets the image field to the URL's path component, runs no
command at all (in particular no sync command), reports success, and only
emits one debug log line. -/
theorem c5_file_scheme_resolution (w : World) (t : UVTKVMTest)
    (h : (urlparse t.image).scheme = "file") :
    UVTKVMTest.get_image_or_source w t =
      ⟨PyResult.ok (true, { t with image := (urlparse t.image).path }), [], [],
       [⟨LogLevel.debug,
          "Cloud image exists locally at " ++ (urlparse t.image).path⟩]⟩ := by
  unfold UVTKVMTest.get_image_or_source
  simp [Eff.bind_eq, Eff.bind, Eff.pure_eq, logD, h]

/-- Witness for C5 at `file:///tmp/x.img`: the image becomes `/tmp/x.img`
and the command trace is empty. -/
theorem c5_file_scheme_resolution_witness :
    UVTKVMTest.get_image_or_source baseWorld
        ⟨"file:///tmp/x.img", "focal", "amd64", "vm1"⟩ =
      ⟨PyResult.ok (true, ⟨"/tmp/x.img", "focal", "amd64", "vm1"⟩), [], [],
       [⟨LogLevel.debug, "Cloud image exists locally at /tmp/x.img"⟩]⟩ := by
  have h := c5_file_scheme_resolution baseWorld
    ⟨"file:///tmp/x.img", "focal", "amd64", "vm1"⟩ (by decide)
  rw [h]
  decide

/-- C6: for every image value whose URL scheme is `http`, image resolution
hands the sync tool exactly one command, carrying `release=`/`arch=`
arguments and a `--source` argument equal to the original image value. -/
theorem c6_http_scheme_source (w : World) (t : UVTKVMTest)
    (h : (urlparse t.image).scheme = "http") :
    (UVTKVMTest.get_image_or_source w t).cmds =
      ["uvt-simplestreams-libvirt sync release=" ++ t.release ++ " arch=" ++
        t.arch ++ " --source " ++ t.image ++ " "] ∧
    hasSubstr ("uvt-simplestreams-libvirt sync release=" ++ t.release ++
        " arch=" ++ t.arch ++ " --source " ++ t.image ++ " ")
      ("--source " ++ t.image) = true := by
  constructor
  · rcases hc : UVTKVMTest.run_command w t
        ("uvt-simplestreams-libvirt sync release=" ++ t.release ++ " arch=" ++
          t.arch ++ " --source " ++ t.image ++ " ") with ⟨rc2, cc, pc, lc⟩
    have hcc : cc = ["uvt-simplestreams-libvirt sync release=" ++ t.release ++
        " arch=" ++ t.arch ++ " --source " ++ t.image ++ " "] := by
      have h0 := run_command_cmds w t
        ("uvt-simplestreams-libvirt sync release=" ++ t.release ++ " arch=" ++
          t.arch ++ " --source " ++ t.image ++ " ")
      rw [hc] at h0
      exact h0
    have hnf : ¬ (urlparse t.image).scheme = "file" := by
      rw [h]
      decide
    unfold UVTKVMTest.get_image_or_source
    simp only [Eff.bind_eq, Eff.bind, Eff.pure_eq, logD, h, hc, hnf]
    subst hcc
    rcases rc2 with b | e
    · cases b <;> simp
    · simp
  · have h1 : " --source " = " " ++ "--source " := by decide
    rw [h1, ← String.append_assoc ("uvt-simplestreams-libvirt sync release=" ++
          t.release ++ " arch=" ++ t.arch) " " "--source ",
        String.append_assoc ("uvt-simplestreams-libvirt sync release=" ++
          t.release ++ " arch=" ++ t.arch ++ " ") "--source " t.image]
    exact hasSubstr_append _ _ _

/-- Witness for C6 at `http://example.com/images/`. -/
theorem c6_http_scheme_source_witness :
    (UVTKVMTest.get_image_or_source baseWorld
        ⟨"http://example.com/images/", "focal", "amd64", "vm1"⟩).cmds =
      ["uvt-simplestreams-libvirt sync release=" ++ "focal" ++ " arch=" ++
        "amd64" ++ " --source " ++ "http://example.com/images/" ++ " "] ∧
    hasSubstr ("uvt-simplestreams-libvirt sync release=" ++ "focal" ++
        " arch=" ++ "amd64" ++ " --source " ++ "http://example.com/images/" ++ " ")
      ("--source " ++ "http://example.com/images/") = true :=
  c6_http_scheme_source baseWorld
    ⟨"http://example.com/images/", "focal", "amd64", "vm1"⟩ (by decide)

/-- C7: for every run that completes (no uncaught exception), the process
exit code is 0 with a final PASS line on stdout when the overall result is
success, and 1 with a final FAIL line when it is failure. -/
theorem c7_exit_code_pass_fail (w : World) (args : Option String)
    (r : RunResult) (h : (test_uvtkvm w args).res = PyResult.ok r) :
    (r.startResult = true → r.exitCode = 0 ∧
      (test_uvtkvm w args).printed.getLast? =
        some "PASS: VM was succssfully started and checked") ∧
    (r.startResult = false → r.exitCode = 1 ∧
      (test_uvtkvm w args).printed.getLast? =
        some "FAIL: VM was not started and/or checked") := by
  obtain ⟨-, hexit, hlast, -, -⟩ := test_uvtkvm_run w args r h
  constructor <;> intro hs <;> rw [hs] at hexit hlast <;> simp_all

/-- Witness for C7 at the benign environment (everything succeeds). -/
theorem c7_exit_code_pass_fail_witness :
    (⟨⟨"", "focal", "amd64", "tmpabc"⟩, ⟨"", "focal", "amd64", "tmpabc"⟩,
        true, true, true, 0⟩ : RunResult).exitCode = 0 ∧
    (test_uvtkvm baseWorld none).printed.getLast? =
      some "PASS: VM was succssfully started and checked" :=
  (c7_exit_code_pass_fail baseWorld none
    ⟨⟨"", "focal", "amd64", "tmpabc"⟩, ⟨"", "focal", "amd64", "tmpabc"⟩,
      true, true, true, 0⟩ (by decide)).1 rfl

/-- C8 counterexample: with the environment variable set and the image flag
present but equal to the empty string (`-i ""`), the environment value wins
— the source tests the flag's truthiness (`if args.image:`), not its
presence — contradicting the claim that a present flag always overrides. -/
theorem c8_image_flag_counterexample :
    select_image (some "http://env.example/images/") (some "") =
      "http://env.example/images/" ∧
    select_image (some "http://env.example/images/") (some "") ≠ "" := by decide

/-- C8 amended: the environment value is applied first and is overridden by
the image flag only when the flag is present with a nonempty value; if only
the environment variable is set its value is used; a flag present but empty
leaves the environment value (or `""`) in force.  The selected value is the
image stored in the context a completed run was constructed with. -/
theorem c8_image_selection :
    (∀ e, select_image (some e) none = e) ∧
    (∀ e v, v ≠ "" → select_image (some e) (some v) = v) ∧
    (∀ v, v ≠ "" → select_image none (some v) = v) ∧
    (∀ e, select_image (some e) (some "") = e) ∧
    select_image none none = "" ∧
    select_image none (some "") = "" ∧
    (∀ w args r, (test_uvtkvm w args).res = PyResult.ok r →
      r.t0.image = select_image (w.env "UVT_IMAGE_OR_SOURCE") args) := by
  refine ⟨fun e => rfl, ?_, ?_, fun e => rfl, rfl, rfl, ?_⟩
  · intro e v hv
    simp [select_image, hv]
  · intro v hv
    simp [select_image, hv]
  · intro w args r h
    obtain ⟨ht0, -, -, -, -⟩ := test_uvtkvm_run w args r h
    rw [ht0]
    rfl

/-- Witness for C8 (amended) at concrete values. -/
theorem c8_image_selection_witness :
    select_image (some "http://env.example/images/") none =
      "http://env.example/images/" ∧
    select_image (some "http://env.example/images/") (some "file:///a.img") =
      "file:///a.img" ∧
    (⟨⟨"", "focal", "amd64", "tmpabc"⟩, ⟨"", "focal", "amd64", "tmpabc"⟩,
        true, true, true, 0⟩ : RunResult).t0.image =
      select_image (baseWorld.env "UVT_IMAGE_OR_SOURCE") none := by
  refine ⟨c8_image_selection.1 "http://env.example/images/", ?_, ?_⟩
  · exact c8_image_selection.2.1 "http://env.example/images/" "file:///a.img"
      (by decide)
  · exact c8_image_selection.2.2.2.2.2.2 baseWorld none
      ⟨⟨"", "focal", "amd64", "tmpabc"⟩, ⟨"", "focal", "amd64", "tmpabc"⟩,
        true, true, true, 0⟩ (by decide)

/-- C9: the context fields release, arch and name are fixed at construction
(from the oracle queries) and preserved by every later operation of a run;
only the image field can change, and only in the `file`-scheme branch of
image resolution, where it becomes the URL's path component — `start` and
`cleanup` return the context unchanged, and over a whole completed run the
final context differs from the constructed one at most in `image`. -/
theorem c9_context_frame :
    (∀ w i, (UVTKVMTest.init w i).image = i ∧
      (UVTKVMTest.init w i).release = w.codename ∧
      (UVTKVMTest.init w i).arch = pyStrip w.archOut ∧
      (UVTKVMTest.init w i).name = pyDrop 5 w.mktempOut) ∧
    (∀ w t b t', (UVTKVMTest.get_image_or_source w t).res = PyResult.ok (b, t') →
      t'.release = t.release ∧ t'.arch = t.arch ∧ t'.name = t.name ∧
      (((urlparse t.image).scheme = "file" ∧ t'.image = (urlparse t.image).path) ∨
        ((urlparse t.image).scheme ≠ "file" ∧ t' = t))) ∧
    (∀ w t b t', (UVTKVMTest.start w t).res = PyResult.ok (b, t') → t' = t) ∧
    (∀ w t b t', (UVTKVMTest.cleanup w t).res = PyResult.ok (b, t') → t' = t) ∧
    (∀ w args r, (test_uvtkvm w args).res = PyResult.ok r →
      r.final.release = r.t0.release ∧ r.final.arch = r.t0.arch ∧
      r.final.name = r.t0.name ∧
      (r.final.image = r.t0.image ∨
        ((urlparse r.t0.image).scheme = "file" ∧
          r.final.image = (urlparse r.t0.image).path))) := by
  refine ⟨fun w i => ⟨rfl, rfl, rfl, rfl⟩, gis_frame, start_frame, cleanup_frame, ?_⟩
  intro w args r h
  obtain ⟨-, -, -, -, h5⟩ := test_uvtkvm_run w args r h
  exact h5

/-- Witness for C9 at the benign environment and a `file` URL image. -/
theorem c9_context_frame_witness :
    (UVTKVMTest.init baseWorld "file:///tmp/x.img").release = "focal" ∧
    ((⟨"/tmp/x.img", "focal", "amd64", "tmpabc"⟩ : UVTKVMTest).name =
      (UVTKVMTest.init baseWorld "file:///tmp/x.img").name) ∧
    ((⟨"/tmp/x.img", "focal", "amd64", "tmpabc"⟩ : UVTKVMTest).image =
      (urlparse (UVTKVMTest.init baseWorld "file:///tmp/x.img").image).path ∨
      (⟨"/tmp/x.img", "focal", "amd64", "tmpabc"⟩ : UVTKVMTest) =
        UVTKVMTest.init baseWorld "file:///tmp/x.img") := by
  have h0 := (c9_context_frame.1 baseWorld "file:///tmp/x.img").2.1
  have h := c9_context_frame.2.1 baseWorld
    (UVTKVMTest.init baseWorld "file:///tmp/x.img") true
    ⟨"/tmp/x.img", "focal", "amd64", "tmpabc"⟩ (by decide)
  refine ⟨by rw [h0]; rfl, h.2.2.1, ?_⟩
  rcases h.2.2.2 with ⟨-, hi⟩ | ⟨-, hi⟩
  · exact Or.inl hi
  · exact Or.inr hi

/-- C10: once a run completes, the PASS/FAIL line and the exit code are
determined by the boolean `start` returned alone — the booleans from image
resolution and cleanup are discarded, so a run whose `start` succeeded
prints PASS and exits 0 no matter what those stages reported. -/
theorem c10_result_from_start_only (w : World) (args : Option String)
    (r : RunResult) (h : (test_uvtkvm w args).res = PyResult.ok r) :
    r.exitCode = (if r.startResult then 0 else 1) ∧
    (test_uvtkvm w args).printed.getLast? =
      some (if r.startResult then "PASS: VM was succssfully started and checked"
            else "FAIL: VM was not started and/or checked") := by
  obtain ⟨-, h1, h2, -, -⟩ := test_uvtkvm_run w args r h
  exact ⟨h1, h2⟩

/-- Witness for C10 at an environment where image resolution and cleanup
both report failure while `start` succeeds: the run still prints PASS and
exits 0. -/
theorem c10_result_from_start_only_witness :
    (⟨⟨"", "focal", "amd64", "tmpabc"⟩, ⟨"", "focal", "amd64", "tmpabc"⟩,
        false, true, false, 0⟩ : RunResult).gisResult = false ∧
    (⟨⟨"", "focal", "amd64", "tmpabc"⟩, ⟨"", "focal", "amd64", "tmpabc"⟩,
        false, true, false, 0⟩ : RunResult).cleanupResult = false ∧
    (⟨⟨"", "focal", "amd64", "tmpabc"⟩, ⟨"", "focal", "amd64", "tmpabc"⟩,
        false, true, false, 0⟩ : RunResult).exitCode =
      (if (⟨⟨"", "focal", "amd64", "tmpabc"⟩, ⟨"", "focal", "amd64", "tmpabc"⟩,
        false, true, false, 0⟩ : RunResult).startResult then 0 else 1) ∧
    (test_uvtkvm gisCleanupFailWorld none).printed.getLast? =
      some "PASS: VM was succssfully started and checked" := by
  have h := c10_result_from_start_only gisCleanupFailWorld none
    ⟨⟨"", "focal", "amd64", "tmpabc"⟩, ⟨"", "focal", "amd64", "tmpabc"⟩,
      false, true, false, 0⟩ (by decide)
  exact ⟨rfl, rfl, h.1, by simpa using h.2⟩
